import Mathlib

/-!
Shallow embedding of `app.py` (Trello -> ICS shimmy).

The program serves an ICS calendar feed built from the cards of one Trello
board, plus a small token-authorization flow.  All HTTP handlers are modelled
as pure functions; the two upstream fetches are modelled as `Option` inputs
(`none` = a non-success upstream response, which `raise_for_status` turns into
an uncaught exception and hence a 500 page).  Exceptions raised while the feed
is being assembled are modelled with `Except Err`.
-/

/-- Kinds of uncaught Python exceptions relevant to feed assembly:
`ValueError` from `strptime`/`range` (the spec's ParseError family),
`OverflowError` from `astimezone`, and `KeyError` from `lists_by_id[...]`
(the spec's LookupError-equivalent). -/
inductive Err where
  | parseError
  | overflowError
  | lookupError
  | valueError
deriving DecidableEq, Repr

/-- `chunk_string` (app.py lines 70-75).  Python raises `ValueError` when
`range`'s step is 0, hence the `Option`; the short-circuit for strings of
length at most 73 is taken before `range` is evaluated. -/
def chunk_string (string : String) (length : Nat) : Option (List String) :=
  if string.length ≤ 73 then some [string]
  else if length = 0 then none
  else some ((List.range ((string.length + length - 1) / length)).map
    (fun j => String.mk ((string.data.drop (j * length)).take length)))

/-- Numeric value of a decimal digit character. -/
def dval (c : Char) : Nat := c.toNat - 48

/-- Exactly `n` decimal digits (the regex `\d{n}`), accumulating their value. -/
def readDigits : Nat → Nat → List Char → Option (Nat × List Char)
  | 0, acc, l => some (acc, l)
  | n + 1, acc, c :: l =>
      if c.isDigit then readDigits n (acc * 10 + dval c) l else none
  | _ + 1, _, [] => none

/-- A single mandatory literal character. -/
def readLit (ch : Char) : List Char → Option (List Char)
  | c :: l => if c = ch then some l else none
  | [] => none

/-- The format's literal `T`; `strptime` compiles its pattern with
IGNORECASE, so a lowercase `t` also matches. -/
def readLitT : List Char → Option (List Char)
  | c :: l => if c = 'T' ∨ c = 't' then some l else none
  | [] => none

/-- `%m`, regex `1[0-2]|0[1-9]|[1-9]` (ordered alternation; the following
literal `-` can never rescue a rejected two-digit branch, so the greedy
reading is exact). -/
def readMonth : List Char → Option (Nat × List Char)
  | c1 :: c2 :: l =>
      if c1 = '1' ∧ '0' ≤ c2 ∧ c2 ≤ '2' then some (10 + dval c2, l)
      else if c1 = '0' ∧ '1' ≤ c2 ∧ c2 ≤ '9' then some (dval c2, l)
      else if '1' ≤ c1 ∧ c1 ≤ '9' then some (dval c1, c2 :: l)
      else none
  | [c1] => if '1' ≤ c1 ∧ c1 ≤ '9' then some (dval c1, []) else none
  | [] => none

/-- `%d`, regex `3[01]|[12]\d|0[1-9]|[1-9]| [1-9]`. -/
def readDay : List Char → Option (Nat × List Char)
  | c1 :: c2 :: l =>
      if c1 = '3' ∧ (c2 = '0' ∨ c2 = '1') then some (30 + dval c2, l)
      else if (c1 = '1' ∨ c1 = '2') ∧ c2.isDigit then
        some (dval c1 * 10 + dval c2, l)
      else if c1 = '0' ∧ '1' ≤ c2 ∧ c2 ≤ '9' then some (dval c2, l)
      else if '1' ≤ c1 ∧ c1 ≤ '9' then some (dval c1, c2 :: l)
      else if c1 = ' ' ∧ '1' ≤ c2 ∧ c2 ≤ '9' then some (dval c2, l)
      else none
  | [c1] => if '1' ≤ c1 ∧ c1 ≤ '9' then some (dval c1, []) else none
  | [] => none

/-- `%H`, regex `2[0-3]|[0-1]\d|\d`. -/
def readHour : List Char → Option (Nat × List Char)
  | c1 :: c2 :: l =>
      if c1 = '2' ∧ '0' ≤ c2 ∧ c2 ≤ '3' then some (20 + dval c2, l)
      else if (c1 = '0' ∨ c1 = '1') ∧ c2.isDigit then
        some (dval c1 * 10 + dval c2, l)
      else if c1.isDigit then some (dval c1, c2 :: l)
      else none
  | [c1] => if c1.isDigit then some (dval c1, []) else none
  | [] => none

/-- `%M`, regex `[0-5]\d|\d`. -/
def readMinute : List Char → Option (Nat × List Char)
  | c1 :: c2 :: l =>
      if '0' ≤ c1 ∧ c1 ≤ '5' ∧ c2.isDigit then
        some (dval c1 * 10 + dval c2, l)
      else if c1.isDigit then some (dval c1, c2 :: l)
      else none
  | [c1] => if c1.isDigit then some (dval c1, []) else none
  | [] => none

/-- `%S`, regex `6[0-1]|[0-5]\d|\d` (values 60 and 61 are rejected later by
the `datetime` constructor). -/
def readSecond : List Char → Option (Nat × List Char)
  | c1 :: c2 :: l =>
      if c1 = '6' ∧ (c2 = '0' ∨ c2 = '1') then some (60 + dval c2, l)
      else if '0' ≤ c1 ∧ c1 ≤ '5' ∧ c2.isDigit then
        some (dval c1 * 10 + dval c2, l)
      else if c1.isDigit then some (dval c1, c2 :: l)
      else none
  | [c1] => if c1.isDigit then some (dval c1, []) else none
  | [] => none

/-- Value in microseconds of a fraction written with the given digits
(`%f` pads the digits on the right to six places). -/
def fracValue (ds : List Char) : Nat :=
  (ds.foldl (fun acc c => acc * 10 + dval c) 0) * 10 ^ (6 - ds.length)

/-- `%f`, regex `[0-9]{1,6}`: one to six digits; a seventh digit makes the
whole pattern fail (the characters after `%f` in this format are never
digits, so backtracking cannot help). -/
def readFrac (l : List Char) : Option (Nat × List Char) :=
  let ds := l.takeWhile Char.isDigit
  if ds.length = 0 ∨ 6 < ds.length then none
  else some (fracValue ds, l.drop ds.length)

/-- The optional seconds part of `%z`, regex `(:?[0-5]\d(\.\d{1,6})?)?`.
Returns the extra offset in microseconds plus the rest; when the group does
not match it consumes nothing (the surrounding pattern then requires end of
input, so this models the regex's backtracking exactly). -/
def readOffSeconds (l : List Char) : Int × List Char :=
  let core : List Char → Option (Int × List Char) := fun l' =>
    match l' with
    | s1 :: s2 :: r =>
        if '0' ≤ s1 ∧ s1 ≤ '5' ∧ s2.isDigit then
          let secs := dval s1 * 10 + dval s2
          match r with
          | '.' :: r2 =>
              let ds := r2.takeWhile Char.isDigit
              if 1 ≤ ds.length ∧ ds.length ≤ 6 then
                some ((secs * 1000000 + fracValue ds : Nat), r2.drop ds.length)
              else some ((secs * 1000000 : Nat), '.' :: r2)
          | _ => some ((secs * 1000000 : Nat), r)
        else none
    | _ => none
  match l with
  | ':' :: r =>
      match core r with
      | some (v, rest) => (v, rest)
      | none => (0, l)
  | _ =>
      match core l with
      | some (v, rest) => (v, rest)
      | none => (0, l)

/-- `%z`, regex `[+-]\d\d:?[0-5]\d(:?[0-5]\d(\.\d{1,6})?)?|(?-i:Z)`.
Returns the UTC offset in microseconds. -/
def readOffset (l : List Char) : Option (Int × List Char) :=
  match l with
  | 'Z' :: r => some (0, r)
  | c :: r =>
      if c = '+' ∨ c = '-' then
        match r with
        | h1 :: h2 :: r2 =>
            if h1.isDigit ∧ h2.isDigit then
              let hh := dval h1 * 10 + dval h2
              let r3 := match r2 with
                | ':' :: rr => rr
                | _ => r2
              match r3 with
              | m1 :: m2 :: r4 =>
                  if '0' ≤ m1 ∧ m1 ≤ '5' ∧ m2.isDigit then
                    let mm := dval m1 * 10 + dval m2
                    let (extra, r5) := readOffSeconds r4
                    let total : Int := ((hh * 3600 + mm * 60) * 1000000 : Nat) + extra
                    some (if c = '-' then -total else total, r5)
                  else none
              | _ => none
            else none
        | _ => none
      else none
  | [] => none

/-- A broken-down aware timestamp as produced by
`datetime.strptime(s, "%Y-%m-%dT%H:%M:%S.%f%z")`:
calendar fields plus the UTC offset in microseconds. -/
structure Parsed where
  year : Nat
  month : Nat
  day : Nat
  hour : Nat
  minute : Nat
  second : Nat
  micro : Nat
  off : Int
deriving DecidableEq, Repr

/-- `y` is a Gregorian leap year. -/
def isLeap (y : Nat) : Bool := y % 4 = 0 ∧ (y % 100 ≠ 0 ∨ y % 400 = 0)

/-- Length of month `m` in year `y`. -/
def daysInMonth (y m : Nat) : Nat :=
  if m = 2 then (if isLeap y then 29 else 28)
  else if m = 4 ∨ m = 6 ∨ m = 9 ∨ m = 11 then 30
  else 31

/-- `datetime.strptime(s, "%Y-%m-%dT%H:%M:%S.%f%z")` for a whole string,
including the validation done by the `datetime`/`timezone` constructors
(year at least 1, day within the month, second at most 59, absolute offset
under 24 hours).  `none` models the raised `ValueError`. -/
def strptime (l : List Char) : Option Parsed :=
  match readDigits 4 0 l with
  | none => none
  | some (y, l) =>
    match readLit '-' l with
    | none => none
    | some l =>
      match readMonth l with
      | none => none
      | some (m, l) =>
        match readLit '-' l with
        | none => none
        | some l =>
          match readDay l with
          | none => none
          | some (d, l) =>
            match readLitT l with
            | none => none
            | some l =>
              match readHour l with
              | none => none
              | some (h, l) =>
                match readLit ':' l with
                | none => none
                | some l =>
                  match readMinute l with
                  | none => none
                  | some (mi, l) =>
                    match readLit ':' l with
                    | none => none
                    | some l =>
                      match readSecond l with
                      | none => none
                      | some (s, l) =>
                        match readLit '.' l with
                        | none => none
                        | some l =>
                          match readFrac l with
                          | none => none
                          | some (f, l) =>
                            match readOffset l with
                            | none => none
                            | some (off, l) =>
                              if l = [] ∧ 1 ≤ y ∧ d ≤ daysInMonth y m ∧
                                  s ≤ 59 ∧ off.natAbs < 86400000000 then
                                some ⟨y, m, d, h, mi, s, f, off⟩
                              else none

/-- Days from 0000-03-01 to the civil date `y-m-d` (shifted-epoch civil
calendar arithmetic; every date with year at least 1 is nonnegative). -/
def daysFromCivil (y m d : Nat) : Nat :=
  let yAdj := if m ≤ 2 then y - 1 else y
  let era := yAdj / 400
  let yoe := yAdj % 400
  let mp := if 2 < m then m - 3 else m + 9
  let doy := (153 * mp + 2) / 5 + d - 1
  let doe := yoe * 365 + yoe / 4 - yoe / 100 + doy
  era * 146097 + doe

/-- Civil date `(y, m, d)` of the day `z` days after 0000-03-01. -/
def civilFromDays (z : Nat) : Nat × Nat × Nat :=
  let era := z / 146097
  let doe := z % 146097
  let yoe := (doe - doe / 1460 + doe / 36524 - doe / 146096) / 365
  let y := yoe + era * 400
  let doy := doe - (365 * yoe + yoe / 4 - yoe / 100)
  let mp := (5 * doy + 2) / 153
  let d := doy - (153 * mp + 2) / 5 + 1
  let m := if mp < 10 then mp + 3 else mp - 9
  (if m ≤ 2 then y + 1 else y, m, d)

/-- The instant of a parsed timestamp's wall-clock fields, in microseconds
from 0000-03-01T00:00:00. -/
def localMicros (p : Parsed) : Int :=
  ((daysFromCivil p.year p.month p.day) * 86400000000 +
    (p.hour * 3600 + p.minute * 60 + p.second) * 1000000 + p.micro : Nat)

/-- The UTC instant of a parsed timestamp (`astimezone(timezone.utc)`). -/
def utcMicros (p : Parsed) : Int := localMicros p - p.off

/-- Microseconds from the shifted epoch to `datetime.min` (0001-01-01). -/
def minMicros : Int := 306 * 86400000000

/-- Microseconds from the shifted epoch to `datetime.max`
(9999-12-31T23:59:59.999999). -/
def maxMicros : Int := 3652364 * 86400000000 + 86399999999

/-- Left-pad a number to two digits, as `strftime`'s `%m`/`%d`/`%H`/`%M`/`%S`. -/
def pad2 (n : Nat) : String :=
  if n < 10 then "0" ++ toString n else toString n

/-- Left-pad a year to four digits, as `strftime`'s `%Y`. -/
def pad4 (n : Nat) : String :=
  if n < 10 then "000" ++ toString n
  else if n < 100 then "00" ++ toString n
  else if n < 1000 then "0" ++ toString n
  else toString n

/-- `strftime("%Y%m%dT%H%M%SZ")` of the UTC instant `t` (microseconds from
the shifted epoch; `t` is nonnegative within the datetime range). -/
def renderTs (t : Nat) : String :=
  let days := t / 86400000000
  let secOfDay := (t % 86400000000) / 1000000
  let ymd := civilFromDays days
  pad4 ymd.1 ++ pad2 ymd.2.1 ++ pad2 ymd.2.2 ++ "T" ++
    pad2 (secOfDay / 3600) ++ pad2 ((secOfDay % 3600) / 60) ++
    pad2 (secOfDay % 60) ++ "Z"

/-- `strftime("%Y%m%dT%H%M%SZ")` after
`replace(hour=0, minute=0, second=0, microsecond=0)`: only the UTC calendar
date survives, the time of day is rendered as midnight. -/
def renderTsMidnight (t : Nat) : String :=
  let days := t / 86400000000
  let ymd := civilFromDays days
  pad4 ymd.1 ++ pad2 ymd.2.1 ++ pad2 ymd.2.2 ++ "T000000Z"

/-- The due-date pipeline of app.py lines 114-118 and 123-127: parse,
convert to UTC, render.  `.error .parseError` is `strptime`'s `ValueError`,
`.error .overflowError` is `astimezone`'s `OverflowError` when the UTC
instant leaves the representable datetime range. -/
def normalizeTs (s : String) : Except Err String :=
  match strptime s.data with
  | none => .error .parseError
  | some p =>
      if utcMicros p < minMicros ∨ maxMicros < utcMicros p then .error .overflowError
      else .ok (renderTs (utcMicros p).toNat)

/-- The start-date pipeline of app.py lines 108-113: parse, convert to UTC,
truncate to midnight, render. -/
def normalizeStartTs (s : String) : Except Err String :=
  match strptime s.data with
  | none => .error .parseError
  | some p =>
      if utcMicros p < minMicros ∨ maxMicros < utcMicros p then .error .overflowError
      else .ok (renderTsMidnight (utcMicros p).toNat)

instance {ε α : Type} [DecidableEq ε] [DecidableEq α] : DecidableEq (Except ε α) :=
  fun a b =>
    match a, b with
    | .error e, .error f =>
        if h : e = f then isTrue (h ▸ rfl)
        else isFalse (fun he => h (Except.error.inj he))
    | .ok x, .ok y =>
        if h : x = y then isTrue (h ▸ rfl)
        else isFalse (fun he => h (Except.ok.inj he))
    | .error _, .ok _ => isFalse (fun he => Except.noConfusion he)
    | .ok _, .error _ => isFalse (fun he => Except.noConfusion he)

/-- One Trello card as returned by the cards endpoint; `none` models JSON
`null` for the nullable `due` and `start` fields. -/
structure Card where
  id : String
  name : String
  desc : String
  url : String
  due : Option String
  start : Option String
  idList : String
deriving DecidableEq, Repr

/-- One Trello list (id and name are the only fields used). -/
structure TrelloList where
  id : String
  name : String
deriving DecidableEq, Repr

/-- Python truthiness of a nullable string field: `None` and `""` are falsy. -/
def pyTruthy : Option String → Bool
  | none => false
  | some s => !(s == "")

/-- `get_lists_by_id`'s dict lookup `lists_by_id[key]`: the dict maps each
id to the *last* fetched list with that id; a missing key is a `KeyError`. -/
def listsById (ls : List TrelloList) (key : String) : Option TrelloList :=
  (ls.filter (fun l => l.id == key)).getLast?

/-- The raw description text of app.py lines 98-101 before folding; `\\n`
in the Python f-string is the two-character sequence backslash-n. -/
def rawDescription (card : Card) : String :=
  if card.desc ≠ "" then card.desc ++ "\\n\\nCard URL: " ++ card.url
  else "Card URL: " ++ card.url

/-- The VEVENT block appended for one card (app.py lines 96-131).  The
caller reaches this code only for cards whose `due` is truthy; errors are
the uncaught exceptions that abort the whole request.  In the source the
start timestamp is fully processed before the due timestamp, so a failing
start wins when both fail. -/
def buildEvent (ls : List TrelloList) (card : Card) : Except Err (List String) :=
  match chunk_string (rawDescription card) 73 with
  | none => .error .valueError
  | some frags =>
    match listsById ls card.idList with
    | none => .error .lookupError
    | some lst =>
      if pyTruthy card.start then
        match normalizeStartTs (card.start.getD ""), normalizeTs (card.due.getD "") with
        | .error e, _ => .error e
        | .ok _, .error e => .error e
        | .ok sd, .ok dd =>
            .ok ["BEGIN:VEVENT",
              "DESCRIPTION:" ++ String.intercalate "\n " frags,
              "URL:" ++ card.url,
              "SUMMARY:" ++ (card.name ++ (" [" ++ (lst.name ++ "]"))),
              "UID:" ++ (card.id ++ "@trello.com"),
              "DTSTAMP:" ++ sd, "DTSTART:" ++ sd,
              "DTEND:" ++ dd, "END:VEVENT"]
      else
        match normalizeTs (card.due.getD "") with
        | .error e => .error e
        | .ok dd =>
            .ok ["BEGIN:VEVENT",
              "DESCRIPTION:" ++ String.intercalate "\n " frags,
              "URL:" ++ card.url,
              "SUMMARY:" ++ (card.name ++ (" [" ++ (lst.name ++ "]"))),
              "UID:" ++ (card.id ++ "@trello.com"),
              "DTSTAMP:" ++ dd, "DTSTART:" ++ dd,
              "DURATION:PT1H", "END:VEVENT"]

/-- The card loop of app.py lines 91-131: cards in upstream order, cards
with a falsy `due` skipped, first uncaught exception aborts everything. -/
def eventBlocks (ls : List TrelloList) : List Card → Except Err (List String)
  | [] => .ok []
  | c :: cs =>
      if pyTruthy c.due then
        match buildEvent ls c with
        | .error e => .error e
        | .ok ev =>
            match eventBlocks ls cs with
            | .error e => .error e
            | .ok rest => .ok (ev ++ rest)
      else eventBlocks ls cs

/-- The full line list of the feed body: fixed VCALENDAR envelope around
the event blocks. -/
def feedLines (ls : List TrelloList) (cs : List Card) : Except Err (List String) :=
  match eventBlocks ls cs with
  | .error e => .error e
  | .ok evs => .ok (["BEGIN:VCALENDAR", "VERSION:2.0",
      "PRODID:-//Infra Bits//Trello -> ICS Shimmy//EN",
      "REFRESH-INTERVAL:PT5M"] ++ evs ++ ["END:VCALENDAR"])

/-- Process configuration (`app.config`); `config.get` of an absent key is
`None`, hence every field is an `Option`. -/
structure Config where
  ICS_KEY : Option String
  TRELLO_ACCESS_TOKEN : Option String
  TRELLO_ACCESS_KEY : Option String
  TRELLO_BOARD_ID : Option String
deriving DecidableEq, Repr

/-- An HTTP response: status, body, optional Content-Type and optional
redirect Location. -/
structure Response where
  status : Nat
  body : String
  contentType : Option String
  location : Option String
deriving DecidableEq, Repr

/-- `make_response("Not Found", 404)`. -/
def notFoundResp : Response := ⟨404, "Not Found", none, none⟩

/-- Flask's page for an uncaught exception. -/
def serverErrorResp : Response := ⟨500, "Internal Server Error", none, none⟩

/-- UTF-8 bytes of one character (reference encoder). -/
def utf8Bytes (c : Char) : List Nat :=
  let n := c.toNat
  if n < 128 then [n]
  else if n < 2048 then [192 + n / 64, 128 + n % 64]
  else if n < 65536 then [224 + n / 4096, 128 + (n / 64) % 64, 128 + n % 64]
  else [240 + n / 262144, 128 + (n / 4096) % 64, 128 + (n / 64) % 64, 128 + n % 64]

/-- Uppercase hexadecimal digit. -/
def hexDigit (n : Nat) : Char :=
  if n < 10 then Char.ofNat (48 + n) else Char.ofNat (55 + n)

/-- `urllib.parse.quote_plus`: keep unreserved ASCII, encode a space as `+`,
percent-encode every other UTF-8 byte. -/
def quotePlus (s : String) : String :=
  String.mk ((s.data.flatMap utf8Bytes).flatMap (fun b =>
    if (48 ≤ b ∧ b ≤ 57) ∨ (65 ≤ b ∧ b ≤ 90) ∨ (97 ≤ b ∧ b ≤ 122) ∨
        b = 95 ∨ b = 46 ∨ b = 45 ∨ b = 126 then [Char.ofNat b]
    else if b = 32 then ['+']
    else ['%', hexDigit (b / 16), hexDigit (b % 16)]))

/-- `urllib.parse.urlencode` over an ordered list of pairs. -/
def urlencode (ps : List (String × String)) : String :=
  String.intercalate "&" (ps.map (fun p => quotePlus p.1 ++ "=" ++ quotePlus p.2))

/-- Python `str()` of a nullable config value, as interpolated by
`urlencode`: `None` renders as the string `None`. -/
def pyStr : Option String → String
  | none => "None"
  | some s => s

/-- Route `GET /c/<access_key>.ics` (`build_ics`, app.py lines 78-134).
`lists?`/`cards?` are the upstream fetch results; `none` models a fetch
that raised (non-success status), which Flask surfaces as a 500. -/
def build_ics (cfg : Config) (access_key : String)
    (lists? : Option (List TrelloList)) (cards? : Option (List Card)) : Response :=
  if some access_key ≠ cfg.ICS_KEY then notFoundResp
  else
    match lists? with
    | none => serverErrorResp
    | some ls =>
      match cards? with
      | none => serverErrorResp
      | some cs =>
        match feedLines ls cs with
        | .error _ => serverErrorResp
        | .ok lines =>
            ⟨200, String.intercalate "\n" lines, some "text/calendar", none⟩

/-- Route `GET /a/<access_key>/token` (`get_auth_token_callback`,
app.py lines 137-153). -/
def get_auth_token_callback (cfg : Config) (access_key : String) : Response :=
  if some access_key ≠ cfg.ICS_KEY then notFoundResp
  else
    ⟨200,
      "<!doctype html>\n    <html lang=\"en\">\n    <body></body>\n" ++
      "    <script type=\"text/javascript\">\n" ++
      "        document.body.innerHTML = '<pre>' + " ++
      "window.location.hash.split('=')[1] + '</pre>';\n" ++
      "    </script>\n    </html>",
      none, none⟩

/-- Route `GET /a/<access_key>` (`get_auth_token`, app.py lines 156-177).
Note the source's branch order: 400 when `TRELLO_ACCESS_TOKEN` is truthy,
then 500 "Missing access key" when `TRELLO_ACCESS_KEY` is truthy, and the
redirect is reached only when the access key is falsy. -/
def get_auth_token (cfg : Config) (access_key : String)
    (isSecure : Bool) (host : String) : Response :=
  if some access_key ≠ cfg.ICS_KEY then notFoundResp
  else if pyTruthy cfg.TRELLO_ACCESS_TOKEN then ⟨400, "Token already set", none, none⟩
  else if pyTruthy cfg.TRELLO_ACCESS_KEY then ⟨500, "Missing access key", none, none⟩
  else
    let params := urlencode [
      ("key", pyStr cfg.TRELLO_ACCESS_KEY),
      ("return_url",
        "http" ++ (if isSecure then "s" else "") ++ "://" ++ host ++
          "/a/" ++ access_key ++ "/token"),
      ("callback_method", "fragment"),
      ("response_type", "token"),
      ("scope", "read"),
      ("expiration", "never"),
      ("name", "Trello -> ICS Shimmy")]
    ⟨302, "", none, some ("https://api.trello.com/1/authorize?" ++ params)⟩

/-- Modelled from the spec: the literal timestamp shape
`YYYY-MM-DDTHH:MM:SS.ffffff±HH:MM` that §4.2 calls "the exact format" -
four digits, dash, two digits, dash, two digits, `T`, 2:2:2 digits, a dot,
exactly six fraction digits, then a sign and a 2:2 offset.  Used only to
compare the spec's wording with what `strptime` actually accepts. -/
def specExactFormat (s : String) : Bool :=
  match s.data with
  | [y1, y2, y3, y4, '-', m1, m2, '-', d1, d2, 'T',
     h1, h2, ':', mi1, mi2, ':', s1, s2, '.',
     f1, f2, f3, f4, f5, f6, sg, o1, o2, ':', o3, o4] =>
      [y1, y2, y3, y4, m1, m2, d1, d2, h1, h2, mi1, mi2, s1, s2,
        f1, f2, f3, f4, f5, f6, o1, o2, o3, o4].all Char.isDigit ∧
        (sg = '+' ∨ sg = '-')
  | _ => false

/-- A 74-character string, above the folding short-circuit threshold. -/
def wStr2 : String := String.mk (List.replicate 74 'a')

/-- The fragments `chunk_string` produces for `wStr2` at length 73. -/
def wFrags2 : List String := [String.mk (List.replicate 73 'a'), "a"]

/-- A 74-character string used for the fragment-length witness. -/
def wStr3 : String := String.mk (List.replicate 74 'b')

/-- The fragments `chunk_string` produces for `wStr3` at length 70. -/
def wFrags3 : List String := [String.mk (List.replicate 70 'b'), "bbbb"]

/- ======================  helper lemmas  ====================== -/

theorem str_ext {x y : String} (h : x.data = y.data) : x = y := by
  cases x
  cases y
  exact congrArg String.mk h

theorem sappend_empty (x : String) : x ++ "" = x := by
  apply str_ext
  rw [String.data_append]
  exact List.append_nil _

/-- Two appends with distinguishable literal prefixes are different strings. -/
theorem sappend_ne (p q s t : String) (n : Nat)
    (hp : n ≤ p.data.length) (hq : n ≤ q.data.length)
    (h : p.data.take n ≠ q.data.take n) : p ++ s ≠ q ++ t := by
  intro he
  apply h
  have hd : p.data ++ s.data = q.data ++ t.data := by
    rw [← String.data_append, ← String.data_append, he]
  rw [← List.take_append_of_le_length hp, ← List.take_append_of_le_length hq, hd]

theorem append_ne_lit (p s lit : String) (n : Nat)
    (hp : n ≤ p.data.length) (hl : n ≤ lit.data.length)
    (h : p.data.take n ≠ lit.data.take n) : p ++ s ≠ lit := by
  intro he
  exact sappend_ne p lit s "" n hp hl h (by rw [sappend_empty]; exact he)

theorem lit_ne_append (lit q t : String) (n : Nat)
    (hl : n ≤ lit.data.length) (hq : n ≤ q.data.length)
    (h : lit.data.take n ≠ q.data.take n) : lit ≠ q ++ t := by
  intro he
  exact sappend_ne lit q "" t n hl hq h (by rw [sappend_empty]; exact he)

theorem sappend_cancel {p x y : String} (h : p ++ x = p ++ y) : x = y := by
  apply str_ext
  have hd := congrArg String.data h
  rw [String.data_append, String.data_append] at hd
  exact List.append_cancel_left hd

theorem sfoldl_append_data (l : List String) :
    ∀ init : String,
      (l.foldl (fun r s => r ++ s) init).data = init.data ++ (l.map String.data).flatten := by
  induction l with
  | nil => intro init; simp
  | cons a l ih =>
      intro init
      rw [List.foldl_cons, ih (init ++ a), String.data_append, List.map_cons,
        List.flatten_cons, List.append_assoc]

theorem sjoin_data (l : List String) :
    (String.join l).data = (l.map String.data).flatten := by
  rw [show String.join l = l.foldl (fun r s => r ++ s) "" from rfl, sfoldl_append_data]
  rfl

/-- Concatenating the Python-style slices of width `len` taken at the
offsets `0, len, 2*len, ...` recovers the list, as soon as the offsets
cover the whole list. -/
theorem chunksFlatten (len : Nat) :
    ∀ (k : Nat) (l : List Char), l.length ≤ k * len →
      ((List.range k).map (fun j => (l.drop (j * len)).take len)).flatten = l := by
  intro k
  induction k with
  | zero =>
      intro l hl
      have : l = [] := List.eq_nil_of_length_eq_zero (by omega)
      subst this
      rfl
  | succ k ih =>
      intro l hl
      rw [List.range_succ_eq_map, List.map_cons, List.map_map, List.flatten_cons]
      have h0 : (l.drop (0 * len)).take len = l.take len := by simp
      have hcomp : ((fun j => (l.drop (j * len)).take len) ∘ Nat.succ) =
          (fun j => (((l.drop len).drop (j * len))).take len) := by
        funext j
        simp only [Function.comp, List.drop_drop]
        congr 2
        rw [Nat.succ_mul, Nat.mul_comm j len, Nat.add_comm]
      have hlen : (l.drop len).length ≤ k * len := by
        have h2 : (k + 1) * len = k * len + len := by ring
        rw [List.length_drop]
        generalize k * len = K at *
        omega
      rw [h0, hcomp, ih (l.drop len) hlen, List.take_append_drop]

/-- `len` slices starting at every multiple of `len` below the rounded-up
multiple cover a list of any length. -/
theorem le_ceilDiv_mul (n len : Nat) (hlen : 1 ≤ len) :
    n ≤ ((n + len - 1) / len) * len := by
  have h := Nat.div_add_mod (n + len - 1) len
  have hr : (n + len - 1) % len < len := Nat.mod_lt _ (by omega)
  generalize hq : (n + len - 1) / len = q at *
  generalize hrr : (n + len - 1) % len = r at *
  rw [Nat.mul_comm]
  generalize len * q = Q at *
  omega

/-- Folding at width 73 never hits the `range` step-zero error. -/
theorem chunk73_exists (r : String) : ∃ fs, chunk_string r 73 = some fs := by
  unfold chunk_string
  split
  · exact ⟨_, rfl⟩
  · split
    · omega
    · exact ⟨_, rfl⟩

/- ======================  C2  ====================== -/

/-- C2: concatenating the fragments returned by `chunk_string`, in order and
without separator, reproduces the input string exactly, for every input
string and chunk length for which fragments are returned (the only input on
which nothing is returned is chunk length 0 with a string longer than 73,
where Python's `range` raises `ValueError`). -/
theorem C2_chunk_roundtrip (s : String) (len : Nat) (fs : List String)
    (h : chunk_string s len = some fs) : String.join fs = s := by
  unfold chunk_string at h
  split at h
  · cases h
    apply str_ext
    rw [sjoin_data]
    simp
  · split at h
    · exact absurd h (by simp)
    · cases h
      apply str_ext
      rw [sjoin_data, List.map_map]
      have hcomp : (String.data ∘ fun j => String.mk ((s.data.drop (j * len)).take len)) =
          (fun j => ((s.data.drop (j * len)).take len)) := rfl
      rw [hcomp]
      apply chunksFlatten
      have hs : s.length = s.data.length := rfl
      rw [← hs]
      exact le_ceilDiv_mul s.length len (by omega)

theorem C2_chunk_roundtrip_witness : String.join wFrags2 = wStr2 :=
  C2_chunk_roundtrip wStr2 73 wFrags2 (by decide)

/- ======================  C3  ====================== -/

/-- C3 counterexample: at maximum line length 2 the input `"abcd"` is
returned as the single fragment `"abcd"`, whose length 4 exceeds 2, because
the 73-character short-circuit returns any short-enough string unfolded. -/
theorem C3_counterexample :
    chunk_string "abcd" 2 = some ["abcd"] ∧ "abcd" ∈ ["abcd"] ∧
      ¬ ("abcd".length ≤ 2) := by
  refine ⟨by decide, by decide, by decide⟩

/-- C3 (amended): every fragment returned by `chunk_string` has length at
most the maximum of the requested length and the 73-character short-circuit
threshold; when the input is longer than 73 characters every fragment
respects the requested length exactly. -/
theorem C3_fragment_length (s : String) (len : Nat) (fs : List String) (f : String)
    (h : chunk_string s len = some fs) (hf : f ∈ fs) :
    f.length ≤ max len 73 ∧ (73 < s.length → f.length ≤ len) := by
  unfold chunk_string at h
  split at h
  case isTrue hshort =>
    cases h
    rw [List.mem_singleton] at hf
    subst hf
    exact ⟨by omega, fun hc => absurd hc (by omega)⟩
  case isFalse hlong =>
    split at h
    · exact absurd h (by simp)
    · cases h
      rw [List.mem_map] at hf
      obtain ⟨j, _, rfl⟩ := hf
      have hlen : (String.mk ((s.data.drop (j * len)).take len)).length ≤ len := by
        have : (String.mk ((s.data.drop (j * len)).take len)).length =
            ((s.data.drop (j * len)).take len).length := rfl
        rw [this, List.length_take]
        omega
      exact ⟨le_trans hlen (le_max_left _ _), fun _ => hlen⟩

/- ==============  buildEvent structure lemmas  ============== -/

theorem buildEvent_start_eq (ls : List TrelloList) (card : Card) (lst : TrelloList)
    (frags : List String) (sd dd : String)
    (hc : chunk_string (rawDescription card) 73 = some frags)
    (hl : listsById ls card.idList = some lst)
    (hs : pyTruthy card.start = true)
    (hsd : normalizeStartTs (card.start.getD "") = .ok sd)
    (hdd : normalizeTs (card.due.getD "") = .ok dd) :
    buildEvent ls card = .ok ["BEGIN:VEVENT",
      "DESCRIPTION:" ++ String.intercalate "\n " frags,
      "URL:" ++ card.url,
      "SUMMARY:" ++ (card.name ++ (" [" ++ (lst.name ++ "]"))),
      "UID:" ++ (card.id ++ "@trello.com"),
      "DTSTAMP:" ++ sd, "DTSTART:" ++ sd,
      "DTEND:" ++ dd, "END:VEVENT"] := by
  simp [buildEvent, hc, hl, hs, hsd, hdd]

theorem buildEvent_nostart_eq (ls : List TrelloList) (card : Card) (lst : TrelloList)
    (frags : List String) (dd : String)
    (hc : chunk_string (rawDescription card) 73 = some frags)
    (hl : listsById ls card.idList = some lst)
    (hs : pyTruthy card.start = false)
    (hdd : normalizeTs (card.due.getD "") = .ok dd) :
    buildEvent ls card = .ok ["BEGIN:VEVENT",
      "DESCRIPTION:" ++ String.intercalate "\n " frags,
      "URL:" ++ card.url,
      "SUMMARY:" ++ (card.name ++ (" [" ++ (lst.name ++ "]"))),
      "UID:" ++ (card.id ++ "@trello.com"),
      "DTSTAMP:" ++ dd, "DTSTART:" ++ dd,
      "DURATION:PT1H", "END:VEVENT"] := by
  simp [buildEvent, hc, hl, hs, hdd]

/-- Every successful VEVENT block has one of the two explicit shapes of
app.py lines 96-131, depending on whether the card's start is truthy. -/
theorem buildEvent_ok_shape (ls : List TrelloList) (card : Card) (ev : List String)
    (h : buildEvent ls card = .ok ev) :
    ∃ frags lst, chunk_string (rawDescription card) 73 = some frags ∧
      listsById ls card.idList = some lst ∧
      ((∃ sd dd, pyTruthy card.start = true ∧
          normalizeStartTs (card.start.getD "") = .ok sd ∧
          normalizeTs (card.due.getD "") = .ok dd ∧
          ev = ["BEGIN:VEVENT",
            "DESCRIPTION:" ++ String.intercalate "\n " frags,
            "URL:" ++ card.url,
            "SUMMARY:" ++ (card.name ++ (" [" ++ (lst.name ++ "]"))),
            "UID:" ++ (card.id ++ "@trello.com"),
            "DTSTAMP:" ++ sd, "DTSTART:" ++ sd,
            "DTEND:" ++ dd, "END:VEVENT"]) ∨
        (∃ dd, pyTruthy card.start = false ∧
          normalizeTs (card.due.getD "") = .ok dd ∧
          ev = ["BEGIN:VEVENT",
            "DESCRIPTION:" ++ String.intercalate "\n " frags,
            "URL:" ++ card.url,
            "SUMMARY:" ++ (card.name ++ (" [" ++ (lst.name ++ "]"))),
            "UID:" ++ (card.id ++ "@trello.com"),
            "DTSTAMP:" ++ dd, "DTSTART:" ++ dd,
            "DURATION:PT1H", "END:VEVENT"])) := by
  cases hc : chunk_string (rawDescription card) 73 with
  | none => rw [buildEvent, hc] at h; simp at h
  | some frags =>
    cases hl : listsById ls card.idList with
    | none => rw [buildEvent, hc] at h; simp [hl] at h
    | some lst =>
      refine ⟨frags, lst, rfl, rfl, ?_⟩
      cases hst : pyTruthy card.start with
      | true =>
        left
        cases hsd : normalizeStartTs (card.start.getD "") with
        | error e => rw [buildEvent, hc] at h; simp [hl, hst, hsd] at h
        | ok sd =>
          cases hdd : normalizeTs (card.due.getD "") with
          | error e => rw [buildEvent, hc] at h; simp [hl, hst, hsd, hdd] at h
          | ok dd =>
            have heq := buildEvent_start_eq ls card lst frags sd dd hc hl hst hsd hdd
            rw [heq] at h
            injection h with h
            exact ⟨sd, dd, rfl, rfl, rfl, h.symm⟩
      | false =>
        right
        cases hdd : normalizeTs (card.due.getD "") with
        | error e => rw [buildEvent, hc] at h; simp [hl, hst, hdd] at h
        | ok dd =>
          have heq := buildEvent_nostart_eq ls card lst frags dd hc hl hst hdd
          rw [heq] at h
          injection h with h
          exact ⟨dd, rfl, rfl, h.symm⟩

theorem C3_fragment_length_witness :
    (String.mk (List.replicate 70 'b')).length ≤ max 70 73 ∧
      (73 < wStr3.length → (String.mk (List.replicate 70 'b')).length ≤ 70) :=
  C3_fragment_length wStr3 70 wFrags3 (String.mk (List.replicate 70 'b'))
    (by decide) (by decide)

/- ======================  C1  ====================== -/

/-- The start-mode rendering always carries a midnight time-of-day. -/
theorem renderTsMidnight_shape (t : Nat) : ∃ p, renderTsMidnight t = p ++ "T000000Z" :=
  ⟨_, rfl⟩

/-- A successful start normalization always ends in `T000000Z`. -/
theorem normalizeStartTs_shape (s sd : String) (h : normalizeStartTs s = .ok sd) :
    ∃ p, sd = p ++ "T000000Z" := by
  cases hp : strptime s.data with
  | none => simp only [normalizeStartTs, hp] at h; exact absurd h (by simp)
  | some p =>
      simp only [normalizeStartTs, hp] at h
      split at h
      · simp at h
      · injection h with h
        rw [← h]
        exact renderTsMidnight_shape _

/-- C1: for a due-bearing card whose due normalizes to `dd`: when the start
timestamp is present (truthy) and normalizes (start mode) to `sd`, the
emitted VEVENT's DTSTART value is `sd` - which always carries a midnight
`T000000Z` time-of-day - and its DTEND value is `dd`, with no DURATION
line; when the start is absent (falsy), the DTSTART value is `dd`, a fixed
`DURATION:PT1H` line is emitted, and no DTEND line appears. -/
theorem C1_vevent_timing (ls : List TrelloList) (card : Card) (lst : TrelloList)
    (d dd : String)
    (hdue : card.due = some d) (_hdne : d ≠ "")
    (hlook : listsById ls card.idList = some lst)
    (hdd : normalizeTs d = .ok dd) :
    (∀ st sd, card.start = some st → st ≠ "" → normalizeStartTs st = .ok sd →
      ∃ ev, buildEvent ls card = .ok ev ∧
        ("DTSTART:" ++ sd) ∈ ev ∧ (∀ x, ("DTSTART:" ++ x) ∈ ev → x = sd) ∧
        ("DTEND:" ++ dd) ∈ ev ∧ (∃ p, sd = p ++ "T000000Z") ∧
        "DURATION:PT1H" ∉ ev) ∧
    (pyTruthy card.start = false →
      ∃ ev, buildEvent ls card = .ok ev ∧
        ("DTSTART:" ++ dd) ∈ ev ∧ (∀ x, ("DTSTART:" ++ x) ∈ ev → x = dd) ∧
        "DURATION:PT1H" ∈ ev ∧ (∀ x, ("DTEND:" ++ x) ∉ ev)) := by
  obtain ⟨frags, hc⟩ := chunk73_exists (rawDescription card)
  have hdd' : normalizeTs (card.due.getD "") = .ok dd := by
    rw [hdue]; exact hdd
  constructor
  · intro st sd hstart hne hsd
    have hst : pyTruthy card.start = true := by
      rw [hstart]; simp [pyTruthy, hne]
    have hsd' : normalizeStartTs (card.start.getD "") = .ok sd := by
      rw [hstart]; exact hsd
    refine ⟨_, buildEvent_start_eq ls card lst frags sd dd hc hlook hst hsd' hdd',
      ?_, ?_, ?_, normalizeStartTs_shape st sd hsd, ?_⟩
    · simp
    · intro x hx
      simp only [List.mem_cons, List.not_mem_nil, or_false] at hx
      rcases hx with h | h | h | h | h | h | h | h | h
      · exact absurd h (append_ne_lit "DTSTART:" x "BEGIN:VEVENT" 1
          (by decide) (by decide) (by decide))
      · exact absurd h (sappend_ne "DTSTART:" "DESCRIPTION:" x _ 2
          (by decide) (by decide) (by decide))
      · exact absurd h (sappend_ne "DTSTART:" "URL:" x _ 1
          (by decide) (by decide) (by decide))
      · exact absurd h (sappend_ne "DTSTART:" "SUMMARY:" x _ 1
          (by decide) (by decide) (by decide))
      · exact absurd h (sappend_ne "DTSTART:" "UID:" x _ 1
          (by decide) (by decide) (by decide))
      · exact absurd h (sappend_ne "DTSTART:" "DTSTAMP:" x _ 6
          (by decide) (by decide) (by decide))
      · exact sappend_cancel h
      · exact absurd h (sappend_ne "DTSTART:" "DTEND:" x _ 3
          (by decide) (by decide) (by decide))
      · exact absurd h (append_ne_lit "DTSTART:" x "END:VEVENT" 1
          (by decide) (by decide) (by decide))
    · simp
    · intro hx
      simp only [List.mem_cons, List.not_mem_nil, or_false] at hx
      rcases hx with h | h | h | h | h | h | h | h | h
      · exact absurd h (by decide)
      · exact absurd h (lit_ne_append "DURATION:PT1H" "DESCRIPTION:" _ 2
          (by decide) (by decide) (by decide))
      · exact absurd h (lit_ne_append "DURATION:PT1H" "URL:" _ 1
          (by decide) (by decide) (by decide))
      · exact absurd h (lit_ne_append "DURATION:PT1H" "SUMMARY:" _ 1
          (by decide) (by decide) (by decide))
      · exact absurd h (lit_ne_append "DURATION:PT1H" "UID:" _ 1
          (by decide) (by decide) (by decide))
      · exact absurd h (lit_ne_append "DURATION:PT1H" "DTSTAMP:" _ 2
          (by decide) (by decide) (by decide))
      · exact absurd h (lit_ne_append "DURATION:PT1H" "DTSTART:" _ 2
          (by decide) (by decide) (by decide))
      · exact absurd h (lit_ne_append "DURATION:PT1H" "DTEND:" _ 2
          (by decide) (by decide) (by decide))
      · exact absurd h (by decide)
  · intro hst
    refine ⟨_, buildEvent_nostart_eq ls card lst frags dd hc hlook hst hdd',
      ?_, ?_, ?_, ?_⟩
    · simp
    · intro x hx
      simp only [List.mem_cons, List.not_mem_nil, or_false] at hx
      rcases hx with h | h | h | h | h | h | h | h | h
      · exact absurd h (append_ne_lit "DTSTART:" x "BEGIN:VEVENT" 1
          (by decide) (by decide) (by decide))
      · exact absurd h (sappend_ne "DTSTART:" "DESCRIPTION:" x _ 2
          (by decide) (by decide) (by decide))
      · exact absurd h (sappend_ne "DTSTART:" "URL:" x _ 1
          (by decide) (by decide) (by decide))
      · exact absurd h (sappend_ne "DTSTART:" "SUMMARY:" x _ 1
          (by decide) (by decide) (by decide))
      · exact absurd h (sappend_ne "DTSTART:" "UID:" x _ 1
          (by decide) (by decide) (by decide))
      · exact absurd h (sappend_ne "DTSTART:" "DTSTAMP:" x _ 6
          (by decide) (by decide) (by decide))
      · exact sappend_cancel h
      · exact absurd h (append_ne_lit "DTSTART:" x "DURATION:PT1H" 3
          (by decide) (by decide) (by decide))
      · exact absurd h (append_ne_lit "DTSTART:" x "END:VEVENT" 1
          (by decide) (by decide) (by decide))
    · simp
    · intro x hx
      simp only [List.mem_cons, List.not_mem_nil, or_false] at hx
      rcases hx with h | h | h | h | h | h | h | h | h
      · exact absurd h (append_ne_lit "DTEND:" x "BEGIN:VEVENT" 1
          (by decide) (by decide) (by decide))
      · exact absurd h (sappend_ne "DTEND:" "DESCRIPTION:" x _ 2
          (by decide) (by decide) (by decide))
      · exact absurd h (sappend_ne "DTEND:" "URL:" x _ 1
          (by decide) (by decide) (by decide))
      · exact absurd h (sappend_ne "DTEND:" "SUMMARY:" x _ 1
          (by decide) (by decide) (by decide))
      · exact absurd h (sappend_ne "DTEND:" "UID:" x _ 1
          (by decide) (by decide) (by decide))
      · exact absurd h (sappend_ne "DTEND:" "DTSTAMP:" x _ 3
          (by decide) (by decide) (by decide))
      · exact absurd h (sappend_ne "DTEND:" "DTSTART:" x _ 3
          (by decide) (by decide) (by decide))
      · exact absurd h (append_ne_lit "DTEND:" x "DURATION:PT1H" 2
          (by decide) (by decide) (by decide))
      · exact absurd h (append_ne_lit "DTEND:" x "END:VEVENT" 1
          (by decide) (by decide) (by decide))

/-- Witness list for the C1 and C10 instantiations. -/
def w1list : TrelloList := ⟨"LW", "Plans"⟩

/-- Witness card with both start and due timestamps. -/
def w1card : Card :=
  ⟨"CW", "Trip", "Notes", "https://t.co/CW",
    some "2024-03-10T09:00:00.000000+00:00",
    some "2024-03-08T23:30:00.000000+02:00", "LW"⟩

theorem C1_vevent_timing_witness :
    ∃ ev, buildEvent [w1list] w1card = .ok ev ∧
      ("DTSTART:" ++ "20240308T000000Z") ∈ ev ∧
      (∀ x, ("DTSTART:" ++ x) ∈ ev → x = "20240308T000000Z") ∧
      ("DTEND:" ++ "20240310T090000Z") ∈ ev ∧
      (∃ p, "20240308T000000Z" = p ++ "T000000Z") ∧
      "DURATION:PT1H" ∉ ev :=
  (C1_vevent_timing [w1list] w1card w1list "2024-03-10T09:00:00.000000+00:00"
      "20240310T090000Z" rfl (by decide) (by decide) (by decide)).1
    "2024-03-08T23:30:00.000000+02:00" "20240308T000000Z" rfl (by decide) (by decide)

/- ======================  C10  ====================== -/

/-- In a VEVENT block shape the DTSTAMP value is unique. -/
theorem dtstamp_unique_in_block (desc u s i v e8 : String) (x : String)
    (h8 : ("DTSTAMP:" ++ x) ≠ e8)
    (hx : ("DTSTAMP:" ++ x) ∈ ["BEGIN:VEVENT", "DESCRIPTION:" ++ desc, "URL:" ++ u,
      "SUMMARY:" ++ s, "UID:" ++ i, "DTSTAMP:" ++ v, "DTSTART:" ++ v,
      e8, "END:VEVENT"]) : x = v := by
  simp only [List.mem_cons, List.not_mem_nil, or_false] at hx
  rcases hx with h | h | h | h | h | h | h | h | h
  · exact absurd h (append_ne_lit "DTSTAMP:" x "BEGIN:VEVENT" 1
      (by decide) (by decide) (by decide))
  · exact absurd h (sappend_ne "DTSTAMP:" "DESCRIPTION:" x _ 2
      (by decide) (by decide) (by decide))
  · exact absurd h (sappend_ne "DTSTAMP:" "URL:" x _ 1
      (by decide) (by decide) (by decide))
  · exact absurd h (sappend_ne "DTSTAMP:" "SUMMARY:" x _ 1
      (by decide) (by decide) (by decide))
  · exact absurd h (sappend_ne "DTSTAMP:" "UID:" x _ 1
      (by decide) (by decide) (by decide))
  · exact sappend_cancel h
  · exact absurd h (sappend_ne "DTSTAMP:" "DTSTART:" x _ 6
      (by decide) (by decide) (by decide))
  · exact absurd h h8
  · exact absurd h (append_ne_lit "DTSTAMP:" x "END:VEVENT" 1
      (by decide) (by decide) (by decide))

/-- In a VEVENT block shape the DTSTART value is unique. -/
theorem dtstart_unique_in_block (desc u s i v e8 : String) (x : String)
    (h8 : ("DTSTART:" ++ x) ≠ e8)
    (hx : ("DTSTART:" ++ x) ∈ ["BEGIN:VEVENT", "DESCRIPTION:" ++ desc, "URL:" ++ u,
      "SUMMARY:" ++ s, "UID:" ++ i, "DTSTAMP:" ++ v, "DTSTART:" ++ v,
      e8, "END:VEVENT"]) : x = v := by
  simp only [List.mem_cons, List.not_mem_nil, or_false] at hx
  rcases hx with h | h | h | h | h | h | h | h | h
  · exact absurd h (append_ne_lit "DTSTART:" x "BEGIN:VEVENT" 1
      (by decide) (by decide) (by decide))
  · exact absurd h (sappend_ne "DTSTART:" "DESCRIPTION:" x _ 2
      (by decide) (by decide) (by decide))
  · exact absurd h (sappend_ne "DTSTART:" "URL:" x _ 1
      (by decide) (by decide) (by decide))
  · exact absurd h (sappend_ne "DTSTART:" "SUMMARY:" x _ 1
      (by decide) (by decide) (by decide))
  · exact absurd h (sappend_ne "DTSTART:" "UID:" x _ 1
      (by decide) (by decide) (by decide))
  · exact absurd h (sappend_ne "DTSTART:" "DTSTAMP:" x _ 6
      (by decide) (by decide) (by decide))
  · exact sappend_cancel h
  · exact absurd h h8
  · exact absurd h (append_ne_lit "DTSTART:" x "END:VEVENT" 1
      (by decide) (by decide) (by decide))

/-- C10: every successfully emitted VEVENT block carries a DTSTAMP line
whose value is identical to the value of its (unique) DTSTART line: the
truncated start timestamp when the card has a truthy start, otherwise the
normalized due timestamp.  The spec never mentions DTSTAMP. -/
theorem C10_dtstamp_equals_dtstart (ls : List TrelloList) (card : Card)
    (ev : List String) (h : buildEvent ls card = .ok ev) :
    ∃ v, ("DTSTAMP:" ++ v) ∈ ev ∧ ("DTSTART:" ++ v) ∈ ev ∧
      (∀ x, ("DTSTAMP:" ++ x) ∈ ev → x = v) ∧
      (∀ x, ("DTSTART:" ++ x) ∈ ev → x = v) ∧
      (pyTruthy card.start = true → normalizeStartTs (card.start.getD "") = .ok v) ∧
      (pyTruthy card.start = false → normalizeTs (card.due.getD "") = .ok v) := by
  obtain ⟨frags, lst, hc, hl, hcase⟩ := buildEvent_ok_shape ls card ev h
  rcases hcase with ⟨sd, dd, hst, hsd, hdd, rfl⟩ | ⟨dd, hst, hdd, rfl⟩
  · refine ⟨sd, by simp, by simp, ?_, ?_, fun _ => hsd,
      fun hf => Bool.noConfusion (hst ▸ hf)⟩
    · intro x hx
      exact dtstamp_unique_in_block _ _ _ _ _ _ x
        (sappend_ne "DTSTAMP:" "DTEND:" x _ 3 (by decide) (by decide) (by decide)) hx
    · intro x hx
      exact dtstart_unique_in_block _ _ _ _ _ _ x
        (sappend_ne "DTSTART:" "DTEND:" x _ 3 (by decide) (by decide) (by decide)) hx
  · refine ⟨dd, by simp, by simp, ?_, ?_,
      fun ht => Bool.noConfusion (hst ▸ ht), fun _ => hdd⟩
    · intro x hx
      exact dtstamp_unique_in_block _ _ _ _ _ _ x
        (append_ne_lit "DTSTAMP:" x "DURATION:PT1H" 2 (by decide) (by decide) (by decide)) hx
    · intro x hx
      exact dtstart_unique_in_block _ _ _ _ _ _ x
        (append_ne_lit "DTSTART:" x "DURATION:PT1H" 2 (by decide) (by decide) (by decide)) hx

/-- The VEVENT block `buildEvent` produces for `w1card`. -/
def w1ev : List String :=
  ["BEGIN:VEVENT",
   "DESCRIPTION:Notes\\n\\nCard URL: https://t.co/CW",
   "URL:https://t.co/CW",
   "SUMMARY:Trip [Plans]",
   "UID:CW@trello.com",
   "DTSTAMP:20240308T000000Z",
   "DTSTART:20240308T000000Z",
   "DTEND:20240310T090000Z",
   "END:VEVENT"]

theorem C10_dtstamp_equals_dtstart_witness :
    ∃ v, ("DTSTAMP:" ++ v) ∈ w1ev ∧ ("DTSTART:" ++ v) ∈ w1ev ∧
      (∀ x, ("DTSTAMP:" ++ x) ∈ w1ev → x = v) ∧
      (∀ x, ("DTSTART:" ++ x) ∈ w1ev → x = v) ∧
      (pyTruthy w1card.start = true → normalizeStartTs (w1card.start.getD "") = .ok v) ∧
      (pyTruthy w1card.start = false → normalizeTs (w1card.due.getD "") = .ok v) :=
  C10_dtstamp_equals_dtstart [w1list] w1card w1ev (by decide)

/- ======================  C5  ====================== -/

/-- Every successful VEVENT block contains exactly one `BEGIN:VEVENT` line. -/
theorem buildEvent_count (ls : List TrelloList) (card : Card) (ev : List String)
    (h : buildEvent ls card = .ok ev) : ev.count "BEGIN:VEVENT" = 1 := by
  obtain ⟨frags, lst, hc, hl, hcase⟩ := buildEvent_ok_shape ls card ev h
  have n1 : ∀ d : String, ¬(("BEGIN:VEVENT" : String) = "DESCRIPTION:" ++ d) :=
    fun d => lit_ne_append "BEGIN:VEVENT" "DESCRIPTION:" d 1 (by decide) (by decide) (by decide)
  have n2 : ∀ d : String, ¬(("BEGIN:VEVENT" : String) = "URL:" ++ d) :=
    fun d => lit_ne_append "BEGIN:VEVENT" "URL:" d 1 (by decide) (by decide) (by decide)
  have n3 : ∀ d : String, ¬(("BEGIN:VEVENT" : String) = "SUMMARY:" ++ d) :=
    fun d => lit_ne_append "BEGIN:VEVENT" "SUMMARY:" d 1 (by decide) (by decide) (by decide)
  have n4 : ∀ d : String, ¬(("BEGIN:VEVENT" : String) = "UID:" ++ d) :=
    fun d => lit_ne_append "BEGIN:VEVENT" "UID:" d 1 (by decide) (by decide) (by decide)
  have n5 : ∀ d : String, ¬(("BEGIN:VEVENT" : String) = "DTSTAMP:" ++ d) :=
    fun d => lit_ne_append "BEGIN:VEVENT" "DTSTAMP:" d 1 (by decide) (by decide) (by decide)
  have n6 : ∀ d : String, ¬(("BEGIN:VEVENT" : String) = "DTSTART:" ++ d) :=
    fun d => lit_ne_append "BEGIN:VEVENT" "DTSTART:" d 1 (by decide) (by decide) (by decide)
  have n7 : ∀ d : String, ¬(("BEGIN:VEVENT" : String) = "DTEND:" ++ d) :=
    fun d => lit_ne_append "BEGIN:VEVENT" "DTEND:" d 1 (by decide) (by decide) (by decide)
  have n8 : ¬(("BEGIN:VEVENT" : String) = "DURATION:PT1H") := by decide
  have n9 : ¬(("BEGIN:VEVENT" : String) = "END:VEVENT") := by decide
  rcases hcase with ⟨sd, dd, _, _, _, rfl⟩ | ⟨dd, _, _, rfl⟩ <;>
    simp [List.count_cons, n1, n2, n3, n4, n5, n6, n7, n8, n9]

/-- The loop of app.py lines 91-131 emits one VEVENT per due-bearing card:
proved by induction over the upstream card order. -/
theorem eventBlocks_count (ls : List TrelloList) :
    ∀ (cs : List Card) (bs : List String), eventBlocks ls cs = .ok bs →
      bs.count "BEGIN:VEVENT" = (cs.filter (fun c => pyTruthy c.due)).length := by
  intro cs
  induction cs with
  | nil =>
      intro bs h
      injection h with h
      rw [← h]
      rfl
  | cons c cs ih =>
      intro bs h
      cases hdue : pyTruthy c.due with
      | false =>
          rw [eventBlocks, hdue] at h
          simp only [Bool.false_eq_true, if_false] at h
          rw [List.filter_cons_of_neg (by simp [hdue])]
          exact ih bs h
      | true =>
          rw [eventBlocks, hdue] at h
          simp only [if_true] at h
          cases hev : buildEvent ls c with
          | error e => rw [hev] at h; simp at h
          | ok ev =>
              rw [hev] at h
              cases hrest : eventBlocks ls cs with
              | error e => rw [hrest] at h; simp at h
              | ok rest =>
                  rw [hrest] at h
                  injection h with h
                  rw [← h, List.count_append, buildEvent_count ls c ev hev,
                    ih rest hrest, List.filter_cons_of_pos (by simp [hdue])]
                  simp [Nat.add_comm]

/-- C5: a card with a falsy due contributes nothing to the feed, and in a
successfully built feed the number of `BEGIN:VEVENT` lines equals the
number of cards whose due value is present and non-empty. -/
theorem C5_event_count :
    (∀ (ls : List TrelloList) (c : Card) (cs : List Card), pyTruthy c.due = false →
        eventBlocks ls (c :: cs) = eventBlocks ls cs) ∧
    (∀ (ls : List TrelloList) (cs : List Card) (lines : List String),
        feedLines ls cs = .ok lines →
        lines.count "BEGIN:VEVENT" = (cs.filter (fun c => pyTruthy c.due)).length) := by
  constructor
  · intro ls c cs h
    rw [eventBlocks, h]
    simp
  · intro ls cs lines h
    cases hev : eventBlocks ls cs with
    | error e => rw [feedLines, hev] at h; simp at h
    | ok evs =>
        rw [feedLines, hev] at h
        injection h with h
        rw [← h, List.count_append, List.count_append]
        have h1 : (["BEGIN:VCALENDAR", "VERSION:2.0",
            "PRODID:-//Infra Bits//Trello -> ICS Shimmy//EN",
            "REFRESH-INTERVAL:PT5M"] : List String).count "BEGIN:VEVENT" = 0 := by decide
        have h2 : (["END:VCALENDAR"] : List String).count "BEGIN:VEVENT" = 0 := by decide
        rw [h1, h2, eventBlocks_count ls cs evs hev]
        simp

/-- Witness cards: one due-less, one with empty due, one due-bearing. -/
def w5cards : List Card :=
  [⟨"A", "NoDue", "", "https://t.co/A", none, none, "LW"⟩,
   ⟨"B", "EmptyDue", "", "https://t.co/B", some "", none, "LW"⟩,
   ⟨"C", "HasDue", "", "https://t.co/C", some "2024-03-10T09:00:00.000000+00:00", none, "LW"⟩]

/-- The feed built from `w5cards`. -/
def w5lines : List String :=
  ["BEGIN:VCALENDAR", "VERSION:2.0",
   "PRODID:-//Infra Bits//Trello -> ICS Shimmy//EN",
   "REFRESH-INTERVAL:PT5M",
   "BEGIN:VEVENT",
   "DESCRIPTION:Card URL: https://t.co/C",
   "URL:https://t.co/C",
   "SUMMARY:HasDue [Plans]",
   "UID:C@trello.com",
   "DTSTAMP:20240310T090000Z",
   "DTSTART:20240310T090000Z",
   "DURATION:PT1H",
   "END:VEVENT",
   "END:VCALENDAR"]

theorem C5_event_count_witness :
    w5lines.count "BEGIN:VEVENT" = (w5cards.filter (fun c => pyTruthy c.due)).length :=
  C5_event_count.2 [w1list] w5cards w5lines (by decide)

/- ======================  C6  ====================== -/

/-- C6: the raw description text is the card's description, the
two-character sequence backslash-n twice, then `Card URL: ` and the url
when the description is non-empty, and exactly `Card URL: ` plus the url
otherwise; it is folded by `chunk_string` at limit 73 and the fragments are
joined with a newline followed by a single space. -/
theorem C6_description (ls : List TrelloList) (card : Card) (ev : List String)
    (h : buildEvent ls card = .ok ev) :
    rawDescription card =
      (if card.desc ≠ "" then card.desc ++ "\\n\\nCard URL: " ++ card.url
        else "Card URL: " ++ card.url) ∧
    ∃ frags, chunk_string (rawDescription card) 73 = some frags ∧
      ("DESCRIPTION:" ++ String.intercalate "\n " frags) ∈ ev := by
  obtain ⟨frags, lst, hc, hl, hcase⟩ := buildEvent_ok_shape ls card ev h
  refine ⟨rfl, frags, hc, ?_⟩
  rcases hcase with ⟨sd, dd, _, _, _, rfl⟩ | ⟨dd, _, _, rfl⟩ <;> simp

/-- Witness card with a non-empty description. -/
def w6card : Card :=
  ⟨"C6", "Task", "Hello", "https://t.co/C6",
    some "2024-03-10T09:00:00.000000+00:00", none, "LW"⟩

/-- The VEVENT block `buildEvent` produces for `w6card`. -/
def w6ev : List String :=
  ["BEGIN:VEVENT",
   "DESCRIPTION:Hello\\n\\nCard URL: https://t.co/C6",
   "URL:https://t.co/C6",
   "SUMMARY:Task [Plans]",
   "UID:C6@trello.com",
   "DTSTAMP:20240310T090000Z",
   "DTSTART:20240310T090000Z",
   "DURATION:PT1H",
   "END:VEVENT"]

theorem C6_description_witness :
    rawDescription w6card =
      (if w6card.desc ≠ "" then w6card.desc ++ "\\n\\nCard URL: " ++ w6card.url
        else "Card URL: " ++ w6card.url) ∧
    ∃ frags, chunk_string (rawDescription w6card) 73 = some frags ∧
      ("DESCRIPTION:" ++ String.intercalate "\n " frags) ∈ w6ev :=
  C6_description [w1list] w6card w6ev (by decide)

/- ======================  C7  ====================== -/

/-- The example card of the spec's end-to-end test. -/
def c7card : Card :=
  ⟨"C1", "Ship", "", "https://t.co/C1",
    some "2024-03-10T09:00:00.000000+00:00", none, "L1"⟩

/-- The VEVENT block `buildEvent` produces for `c7card`. -/
def c7lines : List String :=
  ["BEGIN:VEVENT",
   "DESCRIPTION:Card URL: https://t.co/C1",
   "URL:https://t.co/C1",
   "SUMMARY:Ship [Work]",
   "UID:C1@trello.com",
   "DTSTAMP:20240310T090000Z",
   "DTSTART:20240310T090000Z",
   "DURATION:PT1H",
   "END:VEVENT"]

/-- C7: the spec's end-to-end example, evaluated: the produced VEVENT
contains `SUMMARY:Ship [Work]`, `UID:C1@trello.com`,
`DTSTART:20240310T090000Z`, `DURATION:PT1H`, and a DESCRIPTION line
containing `Card URL: https://t.co/C1`. -/
theorem C7_end_to_end_example :
    buildEvent [⟨"L1", "Work"⟩] c7card = .ok c7lines ∧
    "SUMMARY:Ship [Work]" ∈ c7lines ∧
    "UID:C1@trello.com" ∈ c7lines ∧
    "DTSTART:20240310T090000Z" ∈ c7lines ∧
    "DURATION:PT1H" ∈ c7lines ∧
    ("DESCRIPTION:" ++ "Card URL: https://t.co/C1") ∈ c7lines := by
  refine ⟨by decide, by decide, by decide, by decide, by decide, by decide⟩

/- ======================  C8  ====================== -/

/-- C8: on all three routes, a path key different from the configured
secret (the empty string included) yields the 404 response, whatever the
upstream would have answered - the result does not depend on the fetched
lists or cards at all, so the rejection happens before any upstream call. -/
theorem C8_access_gate :
    (∀ (cfg : Config) (k : String) (ls : Option (List TrelloList))
        (cs : Option (List Card)), some k ≠ cfg.ICS_KEY →
        build_ics cfg k ls cs = notFoundResp) ∧
    (∀ (cfg : Config) (k : String) (sec : Bool) (host : String),
        some k ≠ cfg.ICS_KEY → get_auth_token cfg k sec host = notFoundResp) ∧
    (∀ (cfg : Config) (k : String), some k ≠ cfg.ICS_KEY →
        get_auth_token_callback cfg k = notFoundResp) := by
  refine ⟨?_, ?_, ?_⟩
  · intro cfg k ls cs h
    unfold build_ics
    rw [if_pos h]
  · intro cfg k sec host h
    unfold get_auth_token
    rw [if_pos h]
  · intro cfg k h
    unfold get_auth_token_callback
    rw [if_pos h]

/-- Configuration used by the access-gate witness. -/
def w8cfg : Config := ⟨some "secret", none, none, some "B"⟩

theorem C8_access_gate_witness :
    build_ics w8cfg "" none none = notFoundResp ∧
    get_auth_token w8cfg "" false "example.org" = notFoundResp ∧
    get_auth_token_callback w8cfg "" = notFoundResp :=
  ⟨C8_access_gate.1 w8cfg "" none none (by decide),
   C8_access_gate.2.1 w8cfg "" false "example.org" (by decide),
   C8_access_gate.2.2 w8cfg "" (by decide)⟩

/- ======================  C4  ====================== -/

/-- Config with the access token already set (and an access key). -/
def cfg4t : Config := ⟨some "s", some "tok", some "k", some "B"⟩

/-- Config with no token and the access key present. -/
def cfg4p : Config := ⟨some "s", none, some "k", some "B"⟩

/-- Config with no token and no access key. -/
def cfg4m : Config := ⟨some "s", none, none, some "B"⟩

set_option maxRecDepth 4000 in
/-- C4, evaluated on the three configurations: with the right path key,
a configured token gives 400 as claimed; but a *present* access key gives
the 500 "Missing access key" response, and the 302 redirect is reached
exactly when the access key is missing (`key=None` is even interpolated
into the redirect URL) - the opposite of the claim's 500-when-missing. -/
theorem C4_auth_precondition_inverted :
    get_auth_token cfg4t "s" false "example.org" =
      ⟨400, "Token already set", none, none⟩ ∧
    get_auth_token cfg4p "s" false "example.org" =
      ⟨500, "Missing access key", none, none⟩ ∧
    get_auth_token cfg4m "s" false "example.org" =
      ⟨302, "", none, some ("https://api.trello.com/1/authorize?key=None&return_url=http%3A%2F%2Fexample.org%2Fa%2Fs%2Ftoken&callback_method=fragment&response_type=token&scope=read&expiration=never&name=Trello+-%3E+ICS+Shimmy")⟩ := by
  refine ⟨by decide, by decide, by decide⟩

/- ======================  C9  ====================== -/

/-- C9 (amended): a due-bearing card whose list id has no entry in the
fetched list set raises the KeyError-equivalent; a due or start timestamp
that `strptime` rejects raises the ParseError (`ValueError`) family; and
any erroring card aborts the entire feed build - the request answers 500
and no partial feed is produced. -/
theorem C9_failure_semantics :
    (∀ (ls : List TrelloList) (c : Card), listsById ls c.idList = none →
        buildEvent ls c = .error .lookupError) ∧
    (∀ (ls : List TrelloList) (c : Card) (lst : TrelloList) (d : String),
        listsById ls c.idList = some lst → pyTruthy c.start = false →
        c.due = some d → normalizeTs d = .error .parseError →
        buildEvent ls c = .error .parseError) ∧
    (∀ (ls : List TrelloList) (c : Card) (lst : TrelloList) (st : String),
        listsById ls c.idList = some lst → c.start = some st → st ≠ "" →
        normalizeStartTs st = .error .parseError →
        buildEvent ls c = .error .parseError) ∧
    (∀ (ls : List TrelloList) (cs : List Card),
        (∃ c ∈ cs, pyTruthy c.due = true ∧ ∃ e, buildEvent ls c = .error e) →
        ∃ e, eventBlocks ls cs = .error e) ∧
    (∀ (cfg : Config) (k : String) (ls : List TrelloList) (cs : List Card) (e : Err),
        some k = cfg.ICS_KEY → eventBlocks ls cs = .error e →
        build_ics cfg k (some ls) (some cs) = serverErrorResp) := by
  refine ⟨?_, ?_, ?_, ?_, ?_⟩
  · intro ls c h
    obtain ⟨frags, hc⟩ := chunk73_exists (rawDescription c)
    simp [buildEvent, hc, h]
  · intro ls c lst d hl hst hdue hp
    obtain ⟨frags, hc⟩ := chunk73_exists (rawDescription c)
    simp [buildEvent, hc, hl, hst, hdue, hp]
  · intro ls c lst st hl hstart hne hp
    obtain ⟨frags, hc⟩ := chunk73_exists (rawDescription c)
    have hst : pyTruthy (some st) = true := by simp [pyTruthy, hne]
    simp [buildEvent, hc, hl, hstart, hst, hp]
  · intro ls cs
    induction cs with
    | nil =>
        rintro ⟨c, hmem, -⟩
        exact absurd hmem (List.not_mem_nil c)
    | cons c cs ih =>
        rintro ⟨c', hmem, hdue', e, he⟩
        rcases List.mem_cons.mp hmem with rfl | hmem'
        · cases hbe : buildEvent ls c' with
          | error e2 => exact ⟨e2, by simp [eventBlocks, hdue', hbe]⟩
          | ok ev => exact absurd he (by rw [hbe]; simp)
        · obtain ⟨e', he'⟩ := ih ⟨c', hmem', hdue', e, he⟩
          cases hdc : pyTruthy c.due with
          | false => exact ⟨e', by simp [eventBlocks, hdc, he']⟩
          | true =>
              cases hbe : buildEvent ls c with
              | error e2 => exact ⟨e2, by simp [eventBlocks, hdc, hbe]⟩
              | ok ev => exact ⟨e', by simp [eventBlocks, hdc, hbe, he']⟩
  · intro cfg k ls cs e hk he
    unfold build_ics
    rw [if_neg (not_not_intro hk)]
    simp [feedLines, he]

/-- The list used by the C9 instantiations. -/
def c9list : TrelloList := ⟨"L9", "Ops"⟩

/-- A card whose due timestamp has a 3-digit fraction and a `Z` offset:
Trello's actual wire format, outside the spec's stated exact format. -/
def c9card : Card :=
  ⟨"C9", "Sync", "", "https://t.co/C9", some "2024-03-10T09:00:00.000Z", none, "L9"⟩

/-- The VEVENT lines built for `c9card`. -/
def c9lines : List String :=
  ["BEGIN:VEVENT",
   "DESCRIPTION:Card URL: https://t.co/C9",
   "URL:https://t.co/C9",
   "SUMMARY:Sync [Ops]",
   "UID:C9@trello.com",
   "DTSTAMP:20240310T090000Z",
   "DTSTART:20240310T090000Z",
   "DURATION:PT1H",
   "END:VEVENT"]

/-- C9 counterexample to the claim as stated: the due timestamp
`2024-03-10T09:00:00.000Z` does not match `YYYY-MM-DDTHH:MM:SS.ffffff±HH:MM`
(six fraction digits, signed 2:2 offset), yet no ParseError is raised - the
feed build succeeds, because `strptime`'s `%f` accepts 1-6 fraction digits
and `%z` accepts a literal `Z`. -/
theorem C9_counterexample :
    specExactFormat "2024-03-10T09:00:00.000Z" = false ∧
    eventBlocks [c9list] [c9card] = .ok c9lines := by
  refine ⟨by decide, by decide⟩

/-- A card whose due timestamp is unparseable. -/
def c9badcard : Card :=
  ⟨"CB", "Bad", "", "https://t.co/CB", some "not-a-date", none, "L9"⟩

theorem C9_failure_semantics_witness :
    buildEvent [] c9badcard = .error .lookupError ∧
    buildEvent [c9list] c9badcard = .error .parseError ∧
    (∃ e, eventBlocks [c9list] [c9badcard] = .error e) ∧
    build_ics ⟨some "s", none, none, none⟩ "s" (some [c9list]) (some [c9badcard]) =
      serverErrorResp :=
  ⟨C9_failure_semantics.1 [] c9badcard (by decide),
   C9_failure_semantics.2.1 [c9list] c9badcard c9list "not-a-date"
     (by decide) (by decide) rfl (by decide),
   C9_failure_semantics.2.2.2.1 [c9list] [c9badcard]
     ⟨c9badcard, by decide, by decide, Err.parseError, by decide⟩,
   C9_failure_semantics.2.2.2.2 ⟨some "s", none, none, none⟩ "s" [c9list] [c9badcard]
     Err.parseError rfl (by decide)⟩
